import Mathlib

/-!
Shallow embedding of the hybrid OCR / JSON-recovery pipeline of the
CivilModel backend (`app/services/ocr_service.py` and
`app/services/parser_service.py`), together with theorems settling the
behavioural claims about it.

Python strings are modelled as Lean `String` (a list of unicode scalar
characters); machine-level details that the claims do not touch (IO,
logging, the actual Tesseract/pdfplumber calls) are modelled as explicit
inputs.  Float ratio comparisons in `needs_ocr` are modelled as exact
rational comparisons on natural numbers; every ratio appearing in a
theorem below is exactly 0 or 1, where the float and rational readings
agree.
-/

/-- The apostrophe character, written via its code point. -/
def apos : Char := Char.ofNat 39

/-- Python `str.isspace` / whitespace stripped by `str.strip()` and matched
by the regex class `\s` (Unicode whitespace).  Covers the ASCII whitespace
characters and the Unicode space/separator characters. -/
def pyIsSpace (c : Char) : Bool :=
  let n := c.toNat
  n = 0x20 || n = 0x09 || n = 0x0A || n = 0x0D || n = 0x0B || n = 0x0C ||
  (0x1C ≤ n && n ≤ 0x1F) ||
  n = 0x85 || n = 0xA0 || n = 0x1680 ||
  (0x2000 ≤ n && n ≤ 0x200A) ||
  n = 0x2028 || n = 0x2029 || n = 0x202F ||
  n = 0x205F || n = 0x3000

/-- Strip Python-style whitespace from both ends of a character list
(Python `str.strip()`). -/
def pyStripList (l : List Char) : List Char :=
  ((l.dropWhile pyIsSpace).reverse.dropWhile pyIsSpace).reverse

/-- Python `str.strip()`. -/
def pyStrip (s : String) : String :=
  ⟨pyStripList s.data⟩

/-- Membership in the regex class
`[a-zA-Z0-9\s.,;:!?\-\'\"()\[\]\x7b\x7d/@#$%&*+=<>\n]` used by
`OCRService.needs_ocr` to count "standard ASCII" characters. -/
def asciiClassChar (c : Char) : Bool :=
  ((0x61 ≤ c.toNat && c.toNat ≤ 0x7A) || (0x41 ≤ c.toNat && c.toNat ≤ 0x5A) ||
    (0x30 ≤ c.toNat && c.toNat ≤ 0x39)) ||
  pyIsSpace c ||
  c = '.' || c = ',' || c = ';' || c = ':' || c = '!' || c = '?' ||
  c = '-' || c = apos || c = '"' || c = '(' || c = ')' ||
  c = '[' || c = ']' || c = '\x7b' || c = '\x7d' ||
  c = '/' || c = '@' || c = '#' || c = '$' || c = '%' || c = '&' ||
  c = '*' || c = '+' || c = '=' || c = '<' || c = '>' || c = '\n'

/-- Membership in the Sinhala Unicode block `[඀-෿]`. -/
def sinhalaChar (c : Char) : Bool :=
  0x0D80 ≤ c.toNat && c.toNat ≤ 0x0DFF

/-- Membership in the Tamil Unicode block `[஀-௿]`. -/
def tamilChar (c : Char) : Bool :=
  0x0B80 ≤ c.toNat && c.toNat ≤ 0x0BFF

/-- `OCRService.needs_ocr`.  The argument is `Option String` so that the
Python call `needs_ocr(None)` is representable; `none` and `""` are the
falsy inputs of `if not text`.  The float comparisons
`sinhala_ratio > 0.01`, `other_ratio > 0.20` and `ascii_ratio > 0.80` are
modelled as the exact comparisons `100 * sinhala > total`,
`5 * other > total` and `5 * ascii > 4 * total`. -/
def needs_ocr (text : Option String) : Bool :=
  match text with
  | none => true
  | some s =>
    if s = "" || (pyStrip s).data.length < 10 then
      true
    else
      let total := s.data.length
      let ascii := s.data.countP asciiClassChar
      let sinhala := s.data.countP sinhalaChar
      let tamil := s.data.countP tamilChar
      let other := total - ascii - sinhala - tamil
      if 100 * sinhala > total || 0 < tamil then
        true
      else if 5 * other > total then
        true
      else if 5 * ascii > 4 * total then
        false
      else
        true

/-- The punctuation characters that occur in `needs_ocr`'s ASCII regex
class (the printable ASCII punctuation it recognises). -/
def recognizedPunct : List Char :=
  ['.', ',', ';', ':', '!', '?', '-', apos, '"', '(', ')',
   '[', ']', '\x7b', '\x7d', '/', '@', '#', '$', '%', '&',
   '*', '+', '=', '<', '>']

/-- ASCII letters. -/
def asciiLetter (c : Char) : Bool :=
  (0x61 ≤ c.toNat && c.toNat ≤ 0x7A) || (0x41 ≤ c.toNat && c.toNat ≤ 0x5A)

/-- ASCII decimal digits (regex `\d`; the documents modelled here contain
only ASCII digits). -/
def isDigitChar (c : Char) : Bool := 0x30 ≤ c.toNat && c.toNat ≤ 0x39

/-- Regex `\w` (word characters).  Python's `\w` is Unicode-aware; this
models it for the scripts that occur in this codebase: ASCII
alphanumerics, underscore, Latin-1 letters, Sinhala and Tamil. -/
def isWordChar (c : Char) : Bool :=
  asciiLetter c || isDigitChar c || c = '_' ||
  (0xC0 ≤ c.toNat && c.toNat ≤ 0xFF && c.toNat ≠ 0xD7 && c.toNat ≠ 0xF7) ||
  sinhalaChar c || tamilChar c

/-- Length of the leading whitespace run (`\s*`). -/
def wsRun (l : List Char) : Nat := (l.takeWhile pyIsSpace).length

/-- Length of the leading digit run (`\d*`). -/
def digRun (l : List Char) : Nat := (l.takeWhile isDigitChar).length

/-- Case-insensitive prefix test; `pat` is given in lowercase. -/
def ciStarts (pat l : List Char) : Bool :=
  pat.length ≤ l.length && ((l.take pat.length).map Char.toLower == pat)

/-- One pass of Python `str.replace(pat, rep)` with fuel (the fuel is the
length of the list, enough because each step consumes at least one
character for a non-empty pattern). -/
def listReplaceAux (pat rep : List Char) : Nat → List Char → List Char
  | 0, l => l
  | _ + 1, [] => []
  | fuel + 1, c :: rest =>
    if !pat.isEmpty && pat.isPrefixOf (c :: rest) then
      rep ++ listReplaceAux pat rep fuel ((c :: rest).drop pat.length)
    else
      c :: listReplaceAux pat rep fuel rest

/-- Python `str.replace` (non-overlapping, left to right). -/
def listReplace (pat rep l : List Char) : List Char :=
  listReplaceAux pat rep l.length l

/-- The `encoding_fixes` mapping of `OCRService.clean_text`, in dict
insertion order.  The source dict literal repeats the key `'â€"'`; Python
keeps the first position with the second value (the en dash), so the
effective mapping has 13 entries. -/
def encodingFixes : List (List Char × List Char) :=
  [ (['â', '€', '™'], [apos]),
    (['â', '€', 'œ'], ['"']),
    (['â', '€'], ['"']),
    (['â', '€', '"'], ['–']),
    (['â', '€', '¢'], ['•']),
    (['Â'], []),
    (['â'], [apos]),
    (['Ã', '¢'], ['â']),
    (['Ã', '¤'], ['ä']),
    (['Ã', '¶'], ['ö']),
    (['Ã', '¼'], ['ü']),
    (['Ã', '©'], ['é']),
    (['Ã', '¨'], ['è']) ]

/-- Sequential application of the encoding fixes (the `for wrong, correct
in encoding_fixes.items(): text = text.replace(wrong, correct)` loop). -/
def applyEncodingFixes (l : List Char) : List Char :=
  encodingFixes.foldl (fun acc pr => listReplace pr.1 pr.2 acc) l

/-- Regex substitution driver: scan left to right; at each position ask
the matcher for the length of the match there (`prev` is the character
just before the position, for `^` and `\b` anchors); on a match emit the
replacement and continue after the matched span, otherwise keep the
character.  This is exact for the patterns below, whose matchers are
deterministic (their greedy character classes are pairwise disjoint, so
the backtracking engine has a unique viable path, computed inside each
matcher). -/
def reSubAux (m : Option Char → List Char → Option Nat) (rep : List Char) :
    Nat → Option Char → List Char → List Char
  | 0, _, l => l
  | _ + 1, _, [] => []
  | fuel + 1, prev, c :: rest =>
    match m prev (c :: rest) with
    | some (n + 1) =>
      rep ++ reSubAux m rep fuel (((c :: rest).take (n + 1)).getLast?)
        ((c :: rest).drop (n + 1))
    | _ => c :: reSubAux m rep fuel (some c) rest

/-- Regex substitution over a whole list (fuel = length suffices: every
step consumes at least one character). -/
def reSub (m : Option Char → List Char → Option Nat) (rep l : List Char) :
    List Char :=
  reSubAux m rep l.length none l

/-- Helper for `(?i)...\w+scanner`: the largest `k ≥ 1` (searched downward
from the initial argument) such that `run.drop k` starts with "scanner"
case-insensitively — the backtracking of the greedy `\w+`. -/
def scannerSuffix (run : List Char) : Nat → Option Nat
  | 0 => none
  | k + 1 =>
    if ciStarts ['s', 'c', 'a', 'n', 'n', 'e', 'r'] (run.drop (k + 1)) then
      some (k + 1)
    else
      scannerSuffix run k

/-- Matcher for `(?i)scanned\s+(?:by|with)\s+\w+scanner`. -/
def matchScanner (l : List Char) : Option Nat :=
  if ciStarts ['s', 'c', 'a', 'n', 'n', 'e', 'd'] l then
    let l1 := l.drop 7
    let w1 := wsRun l1
    if w1 = 0 then none else
    let l2 := l1.drop w1
    let conn : Option Nat :=
      if ciStarts ['b', 'y'] l2 then some 2
      else if ciStarts ['w', 'i', 't', 'h'] l2 then some 4
      else none
    match conn with
    | none => none
    | some cl =>
      let l3 := l2.drop cl
      let w2 := wsRun l3
      if w2 = 0 then none else
      let l4 := l3.drop w2
      let run := l4.takeWhile isWordChar
      match scannerSuffix run (run.length - 7) with
      | none => none
      | some k => some (7 + w1 + cl + w2 + k + 7)
  else none

/-- Matcher for `(?i)page\s+\d+\s+of\s+\d+`. -/
def matchPageOf (l : List Char) : Option Nat :=
  if ciStarts ['p', 'a', 'g', 'e'] l then
    let l1 := l.drop 4
    let w1 := wsRun l1
    if w1 = 0 then none else
    let l2 := l1.drop w1
    let d1 := digRun l2
    if d1 = 0 then none else
    let l3 := l2.drop d1
    let w2 := wsRun l3
    if w2 = 0 then none else
    let l4 := l3.drop w2
    if ciStarts ['o', 'f'] l4 then
      let l5 := l4.drop 2
      let w3 := wsRun l5
      if w3 = 0 then none else
      let l6 := l5.drop w3
      let d2 := digRun l6
      if d2 = 0 then none else
      some (4 + w1 + d1 + w2 + 2 + w3 + d2)
    else none
  else none

/-- Matcher for `(?i)page\s+\d+/\d+`. -/
def matchPageSlash (l : List Char) : Option Nat :=
  if ciStarts ['p', 'a', 'g', 'e'] l then
    let l1 := l.drop 4
    let w1 := wsRun l1
    if w1 = 0 then none else
    let l2 := l1.drop w1
    let d1 := digRun l2
    if d1 = 0 then none else
    let l3 := l2.drop d1
    match l3.head? with
    | some '/' =>
      let l4 := l3.drop 1
      let d2 := digRun l4
      if d2 = 0 then none else
      some (4 + w1 + d1 + 1 + d2)
    | _ => none
  else none

/-- Matcher for `\b\d+\s+of\s+\d+\b` (case-sensitive). -/
def matchNofN (prev : Option Char) (l : List Char) : Option Nat :=
  let boundary := match prev with | none => true | some c => !isWordChar c
  if !boundary then none else
  let d1 := digRun l
  if d1 = 0 then none else
  let l1 := l.drop d1
  let w1 := wsRun l1
  if w1 = 0 then none else
  let l2 := l1.drop w1
  if ['o', 'f'].isPrefixOf l2 then
    let l3 := l2.drop 2
    let w2 := wsRun l3
    if w2 = 0 then none else
    let l4 := l3.drop w2
    let d2 := digRun l4
    if d2 = 0 then none else
    let l5 := l4.drop d2
    let endBoundary := match l5.head? with | none => true | some c => !isWordChar c
    if endBoundary then some (d1 + w1 + 2 + w2 + d2) else none
  else none

/-- Matcher for `-\s*\d+\s*-`. -/
def matchDashNum (l : List Char) : Option Nat :=
  match l with
  | '-' :: rest =>
    let w1 := wsRun rest
    let l1 := rest.drop w1
    let d := digRun l1
    if d = 0 then none else
    let l2 := l1.drop d
    let w2 := wsRun l2
    match (l2.drop w2).head? with
    | some '-' => some (1 + w1 + d + w2 + 1)
    | _ => none
  | _ => none

/-- Backtracking of the trailing greedy `\s*` against the multiline `$`:
the largest `k` (searched downward from the whitespace-run length) such
that the position after `k` whitespace characters is the end of the input
or sits before a newline. -/
def dollarK (l2 : List Char) : Nat → Option Nat
  | 0 => if l2.isEmpty || l2.head? = some '\n' then some 0 else none
  | k + 1 =>
    if (l2.drop (k + 1)).isEmpty || (l2.drop (k + 1)).head? = some '\n' then
      some (k + 1)
    else
      dollarK l2 k

/-- Matcher for `^\s*\d+\s*$` with `re.MULTILINE` (`^` holds at the start
of the string or right after a newline). -/
def matchStandaloneNum (prev : Option Char) (l : List Char) : Option Nat :=
  let atStart := match prev with | none => true | some c => c = '\n'
  if !atStart then none else
  let w1 := wsRun l
  let l1 := l.drop w1
  let d := digRun l1
  if d = 0 then none else
  let l2 := l1.drop d
  match dollarK l2 (wsRun l2) with
  | none => none
  | some k => some (w1 + d + k)

/-- Python `text.split('\n')` (empty parts kept). -/
def splitNl : List Char → List (List Char)
  | [] => [[]]
  | c :: rest =>
    let r := splitNl rest
    if c = '\n' then [] :: r
    else
      match r with
      | h :: t => (c :: h) :: t
      | [] => [[c]]

/-- Per-line `re.sub(r'\s+', ' ', line)`: every maximal whitespace run
becomes a single space (fuel = length). -/
def normWsAux : Nat → List Char → List Char
  | 0, l => l
  | _ + 1, [] => []
  | fuel + 1, c :: rest =>
    if pyIsSpace c then ' ' :: normWsAux fuel (rest.dropWhile pyIsSpace)
    else c :: normWsAux fuel rest

/-- The `prev_empty` loop of `clean_text`: collapse runs of empty lines to
a single empty line. -/
def collapseEmpties : List (List Char) → Bool → List (List Char)
  | [], _ => []
  | l :: ls, prevEmpty =>
    if l.length = 0 then
      if prevEmpty then collapseEmpties ls true
      else l :: collapseEmpties ls true
    else l :: collapseEmpties ls false

/-- The final character filter of `clean_text`: keep printable ASCII,
newline, tab, Sinhala and Tamil
(`re.sub(r'[^\x20-\x7E\n\t඀-෿஀-௿]', '', text)`). -/
def keepChar (c : Char) : Bool :=
  (0x20 ≤ c.toNat && c.toNat ≤ 0x7E) || c = '\n' || c = '\t' ||
  sinhalaChar c || tamilChar c

/-- `OCRService.clean_text`. -/
def clean_text (text : String) : String :=
  if text = "" then ""
  else
    let t0 := applyEncodingFixes text.data
    let t1 := reSub (fun _ => matchScanner) [] t0
    let t2 := reSub (fun _ => matchPageOf) [] t1
    let t3 := reSub (fun _ => matchPageSlash) [] t2
    let t4 := reSub matchNofN [] t3
    let t5 := reSub (fun _ => matchDashNum) [] t4
    let t6 := reSub matchStandaloneNum [] t5
    let lines0 := (splitNl t6).map pyStripList
    let lines1 := lines0.filter
      (fun l => 2 < (pyStripList l).length || pyStripList l == [])
    let lines2 := lines1.map (fun l => normWsAux l.length l)
    let lines3 := collapseEmpties lines2 false
    let t7 := List.intercalate ['\n'] lines3
    let t8 := t7.filter keepChar
    ⟨pyStripList t8⟩

/-- What the environment did for `page.extract_text()` on one page:
either it raised an exception, or it returned `None` or a string. -/
inductive ExtractOutcome where
  | raised
  | ok (text : Option String)

/-- One page of an opened PDF, as seen by `OCRService.process_pdf`:
the behaviour of the fast extractor on it, and the string that
`extract_page_with_ocr` yields for it.  `extract_page_with_ocr` is total:
it catches its own exceptions and returns `""` (and otherwise returns the
stripped OCR output), so it is modelled by the string it returns. -/
structure PageData where
  extract : ExtractOutcome
  ocrText : String

/-- Outcome of the loop body for one page: fast-path text, OCR-fallback
text, or a failed page. -/
inductive PageResult where
  | fast (text : String)
  | ocr (text : String)
  | failed

/-- The body of the per-page loop of `process_pdf` up to its `except`
handler: `page.extract_text()` may raise (propagated here as `Except.error`);
otherwise the fast path is taken when the text is truthy and
`needs_ocr` rejects it, else the OCR fallback runs and an empty OCR
result marks the page failed. -/
def pageTry (p : PageData) : Except Unit PageResult :=
  match p.extract with
  | .raised => .error ()
  | .ok pageText =>
    .ok (match pageText with
      | some t =>
        if t ≠ "" && !(needs_ocr (some t)) then .fast t
        else if p.ocrText ≠ "" then .ocr p.ocrText
        else .failed
      | none =>
        if p.ocrText ≠ "" then .ocr p.ocrText
        else .failed)

/-- The loop body including its `except Exception` handler: an exception
is caught and the page is counted as failed. -/
def pageStep (p : PageData) : PageResult :=
  match pageTry p with
  | .ok r => r
  | .error _ => .failed

/-- Whether a page result took the fast path. -/
def isFastR : PageResult → Bool
  | .fast _ => true
  | _ => false

/-- Whether a page result took the OCR fallback. -/
def isOcrR : PageResult → Bool
  | .ocr _ => true
  | _ => false

/-- Whether a page result is a failed page. -/
def isFailedR : PageResult → Bool
  | .failed => true
  | _ => false

/-- The page-counter fields of the metadata dict. -/
structure PageCounts where
  successful : Nat
  fastPath : Nat
  ocrFallback : Nat
  failed : Nat
deriving DecidableEq, Repr

/-- The zero counters `process_pdf` starts from. -/
def zeroCounts : PageCounts := ⟨0, 0, 0, 0⟩

/-- The counter increments performed for one page result. -/
def countsAdd (c : PageCounts) : PageResult → PageCounts
  | .fast _ => { c with successful := c.successful + 1, fastPath := c.fastPath + 1 }
  | .ocr _ => { c with successful := c.successful + 1, ocrFallback := c.ocrFallback + 1 }
  | .failed => { c with failed := c.failed + 1 }

/-- Accumulation of the page counters over the processed pages (the
`for page_num, page in enumerate(pages_to_process)` loop). -/
def processPages (ps : List PageData) : PageCounts :=
  ps.foldl (fun c p => countsAdd c (pageStep p)) zeroCounts

/-- The pages actually iterated over: `pages[:max_pages]` when `max_pages`
is truthy (`if max_pages:` — so `None` and `0` both mean all pages). -/
def pagesToProcess (pages : List PageData) (maxPages : Option Nat) : List PageData :=
  match maxPages with
  | some m => if m ≠ 0 then pages.take m else pages
  | none => pages

/-- The page-header text `f"--- Page {page_num} ---\n{text}"` prepended to
each successful page's text. -/
def pageHeader (n : Nat) (t : String) : String :=
  "--- Page " ++ toString n ++ " ---\n" ++ t

/-- The `all_text` list collected by the loop (1-indexed page numbers;
failed pages contribute nothing). -/
def pageTexts (n : Nat) : List PageData → List String
  | [] => []
  | p :: ps =>
    match pageStep p with
    | .fast t => pageHeader n t :: pageTexts (n + 1) ps
    | .ocr t => pageHeader n t :: pageTexts (n + 1) ps
    | .failed => pageTexts (n + 1) ps

/-- The metadata dict returned by `process_pdf`. -/
structure Metadata where
  total_pages : Nat
  successful_pages : Nat
  fast_path_pages : Nat
  ocr_fallback_pages : Nat
  failed_pages : Nat
  character_count : Nat
  word_count : Nat
deriving DecidableEq, Repr

/-- Python `str.split()` with no separator: maximal whitespace-separated
tokens, no empty tokens. -/
def pySplitWs (l : List Char) : List (List Char) :=
  ((l.splitOnP pyIsSpace).filter (fun t => !t.isEmpty))

/-- `OCRService.process_pdf` on an opened document, returning
`(cleaned_text, metadata)`.  A document whose container fails to open
re-raises outside this model; per-page behaviour is the `PageData`
input. -/
def process_pdf (pages : List PageData) (maxPages : Option Nat) :
    String × Metadata :=
  let ps := pagesToProcess pages maxPages
  let c := processPages ps
  let combined := String.intercalate "\n\n" (pageTexts 1 ps)
  let cleaned := clean_text combined
  (cleaned,
    { total_pages := pages.length
      successful_pages := c.successful
      fast_path_pages := c.fastPath
      ocr_fallback_pages := c.ocrFallback
      failed_pages := c.failed
      character_count := cleaned.data.length
      word_count := (pySplitWs cleaned.data).length })

/-- JSON values as produced by Python `json.loads`.  Numbers keep their
source token (Python converts them to `int`/`float`; no claim below
inspects a converted value).  `NaN`/`Infinity` tokens, accepted by
`json.loads`, are kept as number tokens too.  Objects are the ordered
key/value pairs (the inputs considered have no duplicate keys, which
Python's dict would collapse). -/
inductive Json where
  | null
  | bool (b : Bool)
  | num (tok : String)
  | str (s : String)
  | arr (xs : List Json)
  | obj (kvs : List (String × Json))

/-- JSON structural whitespace (`json.decoder.WHITESPACE`). -/
def jsonWsChar (c : Char) : Bool :=
  c = ' ' || c = '\t' || c = '\n' || c = '\r'

/-- Skip JSON structural whitespace. -/
def skipJsonWs (l : List Char) : List Char := l.dropWhile jsonWsChar

/-- Value of one hex digit. -/
def hexVal (c : Char) : Option Nat :=
  if '0' ≤ c && c ≤ '9' then some (c.toNat - 48)
  else if 'a' ≤ c && c ≤ 'f' then some (c.toNat - 87)
  else if 'A' ≤ c && c ≤ 'F' then some (c.toNat - 55)
  else none

/-- Four hex digits of a `\uXXXX` escape. -/
def parseHex4 : List Char → Option (Nat × List Char)
  | a :: b :: c :: d :: rest =>
    match hexVal a, hexVal b, hexVal c, hexVal d with
    | some va, some vb, some vc, some vd =>
      some (((va * 16 + vb) * 16 + vc) * 16 + vd, rest)
    | _, _, _, _ => none
  | _ => none

/-- Strict JSON string body, positioned after the opening quote; returns
the decoded contents and the input after the closing quote.  Raw control
characters are rejected (`strict=True`).  A `\uXXXX` surrogate pair is
combined; a lone surrogate (kept verbatim by Python, not representable as
a Lean `Char`) is mapped to U+FFFD — no input considered here contains
one. -/
def parseJsonStrAux : Nat → List Char → Option (List Char × List Char)
  | 0, _ => none
  | _ + 1, [] => none
  | fuel + 1, c :: rest =>
    if c = '"' then some ([], rest)
    else if c = '\\' then
      match rest with
      | [] => none
      | e :: rest2 =>
        let simple : Option Char :=
          if e = '"' then some '"'
          else if e = '\\' then some '\\'
          else if e = '/' then some '/'
          else if e = 'b' then some (Char.ofNat 8)
          else if e = 'f' then some (Char.ofNat 12)
          else if e = 'n' then some '\n'
          else if e = 'r' then some '\r'
          else if e = 't' then some '\t'
          else none
        match simple with
        | some ch =>
          (parseJsonStrAux fuel rest2).map (fun pr => (ch :: pr.1, pr.2))
        | none =>
          if e = 'u' then
            match parseHex4 rest2 with
            | none => none
            | some (v, rest3) =>
              if 0xD800 ≤ v && v ≤ 0xDBFF then
                match rest3 with
                | '\\' :: 'u' :: rest4 =>
                  match parseHex4 rest4 with
                  | some (v2, rest5) =>
                    if 0xDC00 ≤ v2 && v2 ≤ 0xDFFF then
                      let cp := 0x10000 + (v - 0xD800) * 0x400 + (v2 - 0xDC00)
                      (parseJsonStrAux fuel rest5).map
                        (fun pr => (Char.ofNat cp :: pr.1, pr.2))
                    else
                      (parseJsonStrAux fuel rest3).map
                        (fun pr => (Char.ofNat 0xFFFD :: pr.1, pr.2))
                  | none =>
                    (parseJsonStrAux fuel rest3).map
                      (fun pr => (Char.ofNat 0xFFFD :: pr.1, pr.2))
                | _ =>
                  (parseJsonStrAux fuel rest3).map
                    (fun pr => (Char.ofNat 0xFFFD :: pr.1, pr.2))
              else if 0xDC00 ≤ v && v ≤ 0xDFFF then
                (parseJsonStrAux fuel rest3).map
                  (fun pr => (Char.ofNat 0xFFFD :: pr.1, pr.2))
              else
                (parseJsonStrAux fuel rest3).map
                  (fun pr => (Char.ofNat v :: pr.1, pr.2))
          else none
    else if c.val < 0x20 then none
    else (parseJsonStrAux fuel rest).map (fun pr => (c :: pr.1, pr.2))

/-- JSON number token (the `NUMBER_RE` grammar
`-?(0|[1-9]\d*)(\.\d+)?([eE][+-]?\d+)?`); returns the token and the
rest. -/
def parseJsonNum (l : List Char) : Option (List Char × List Char) :=
  let sl : List Char × List Char :=
    match l with
    | '-' :: r => (['-'], r)
    | _ => ([], l)
  match sl.2.head? with
  | none => none
  | some c =>
    if !isDigitChar c then none
    else
      let ip := if c = '0' then ['0'] else sl.2.takeWhile isDigitChar
      let l2 := sl.2.drop ip.length
      let fl : List Char × List Char :=
        match l2 with
        | '.' :: r =>
          let ds := r.takeWhile isDigitChar
          if ds.isEmpty then ([], l2) else ('.' :: ds, r.drop ds.length)
        | _ => ([], l2)
      let el : List Char × List Char :=
        match fl.2 with
        | e :: r =>
          if e = 'e' || e = 'E' then
            let sr : List Char × List Char :=
              match r with
              | s :: r2 => if s = '+' || s = '-' then ([s], r2) else ([], r)
              | [] => ([], r)
            let ds := sr.2.takeWhile isDigitChar
            if ds.isEmpty then ([], fl.2)
            else (e :: sr.1 ++ ds, sr.2.drop ds.length)
          else ([], fl.2)
        | [] => ([], fl.2)
      some (sl.1 ++ ip ++ fl.1 ++ el.1, el.2)

mutual

/-- `scan_once` of the Python JSON decoder: one value at the current
position (no leading-whitespace skip; callers skip it as the decoder
does). -/
def parseJsonValue : Nat → List Char → Option (Json × List Char)
  | 0, _ => none
  | fuel + 1, l =>
    match l with
    | [] => none
    | c :: rest =>
      if c = '"' then
        (parseJsonStrAux (rest.length + 1) rest).map
          (fun pr => (.str ⟨pr.1⟩, pr.2))
      else if c = '\x7b' then
        let l1 := skipJsonWs rest
        match l1 with
        | '\x7d' :: r => some (.obj [], r)
        | _ =>
          match parseJsonMembers fuel l1 with
          | some (kvs, r) => some (.obj kvs, r)
          | none => none
      else if c = '[' then
        let l1 := skipJsonWs rest
        match l1 with
        | ']' :: r => some (.arr [], r)
        | _ =>
          match parseJsonItems fuel l1 with
          | some (xs, r) => some (.arr xs, r)
          | none => none
      else if ['n', 'u', 'l', 'l'].isPrefixOf l then some (.null, l.drop 4)
      else if ['t', 'r', 'u', 'e'].isPrefixOf l then some (.bool true, l.drop 4)
      else if ['f', 'a', 'l', 's', 'e'].isPrefixOf l then some (.bool false, l.drop 5)
      else
        match parseJsonNum l with
        | some (tok, r) => some (.num ⟨tok⟩, r)
        | none =>
          if ['N', 'a', 'N'].isPrefixOf l then some (.num "NaN", l.drop 3)
          else if "Infinity".data.isPrefixOf l then some (.num "Infinity", l.drop 8)
          else if ('-' :: "Infinity".data).isPrefixOf l then
            some (.num "-Infinity", l.drop 9)
          else none

/-- Object members, positioned at the opening quote of a key (whitespace
already skipped); consumes through the closing brace. -/
def parseJsonMembers : Nat → List Char → Option (List (String × Json) × List Char)
  | 0, _ => none
  | fuel + 1, l =>
    match l with
    | '"' :: rest =>
      match parseJsonStrAux (rest.length + 1) rest with
      | none => none
      | some (key, r1) =>
        match skipJsonWs r1 with
        | ':' :: r3 =>
          match parseJsonValue fuel (skipJsonWs r3) with
          | none => none
          | some (v, r4) =>
            match skipJsonWs r4 with
            | ',' :: r6 =>
              match parseJsonMembers fuel (skipJsonWs r6) with
              | some (kvs, r7) => some ((⟨key⟩, v) :: kvs, r7)
              | none => none
            | '\x7d' :: r6 => some ([(⟨key⟩, v)], r6)
            | _ => none
        | _ => none
    | _ => none

/-- Array items, positioned at the first item (whitespace already
skipped); consumes through the closing bracket. -/
def parseJsonItems : Nat → List Char → Option (List Json × List Char)
  | 0, _ => none
  | fuel + 1, l =>
    match parseJsonValue fuel l with
    | none => none
    | some (v, r1) =>
      match skipJsonWs r1 with
      | ',' :: r3 =>
        match parseJsonItems fuel (skipJsonWs r3) with
        | some (xs, r4) => some (v :: xs, r4)
        | none => none
      | ']' :: r3 => some ([v], r3)
      | _ => none

end

/-- Python `json.loads` on a string: optional leading whitespace, one
value, optional trailing whitespace, end of input; `none` models a raised
`JSONDecodeError`. -/
def jsonLoads (s : String) : Option Json :=
  let l := skipJsonWs s.data
  match parseJsonValue (l.length + 1) l with
  | some (v, rest) => if (skipJsonWs rest).isEmpty then some v else none
  | none => none

/-- The backtick character. -/
def btick : Char := Char.ofNat 96

/-- A triple-backtick fence delimiter. -/
def fence3 : List Char := [btick, btick, btick]

/-- Backtracking of the greedy `\s*` before the closing fence of
```` ```(?:json)?\s*(.*?)\s*``` ````: the largest `k` not exceeding the
whitespace run such that a closing fence starts after `k` whitespace
characters. -/
def closeFenceK (l : List Char) : Option Nat :=
  closeFenceKAux l (wsRun l)
where
  closeFenceKAux (l : List Char) : Nat → Option Nat
    | 0 => if fence3.isPrefixOf l then some 0 else none
    | k + 1 =>
      if fence3.isPrefixOf (l.drop (k + 1)) then some (k + 1)
      else closeFenceKAux l k

/-- The lazy `(.*?)` scan: smallest capture length `r` at which the
trailing `\s*` and closing fence match, together with the (greedy) `k`
used there. -/
def lazyFence : Nat → List Char → Nat → Option (Nat × Nat)
  | 0, _, _ => none
  | fuel + 1, cur, r =>
    match closeFenceK cur with
    | some k => some (r, k)
    | none =>
      match cur with
      | [] => none
      | _ :: rest => lazyFence fuel rest (r + 1)

/-- `re.findall(r'```(?:json)?\s*(.*?)\s*```', s, re.DOTALL)`: the list of
fenced-block contents, scanning left to right, continuing after each
match. -/
def findCodeBlocks : Nat → List Char → List (List Char)
  | 0, _ => []
  | _ + 1, [] => []
  | fuel + 1, c :: rest =>
    if fence3.isPrefixOf (c :: rest) then
      let l1 := (c :: rest).drop 3
      let l2 := if ['j', 's', 'o', 'n'].isPrefixOf l1 then l1.drop 4 else l1
      let l3 := l2.drop (wsRun l2)
      match lazyFence (l3.length + 1) l3 0 with
      | some (r, k) => l3.take r :: findCodeBlocks fuel (l3.drop (r + k + 3))
      | none => findCodeBlocks fuel rest
    else findCodeBlocks fuel rest

/-- Greedy scan of the body of `\x7b(?:[^\x7b\x7d]|(?:\x7b[^\x7b\x7d]*\x7d))*\x7d`
after its opening brace (`op`/`cl` make it reusable for the bracket
pattern): number of characters consumed through the closing `cl`.  The
pattern's alternatives are disjoint, so the backtracking engine has this
unique viable path. -/
def groupScan (op cl : Char) : Nat → List Char → Option Nat
  | 0, _ => none
  | _ + 1, [] => none
  | fuel + 1, c :: rest =>
    if c = cl then some 1
    else if c = op then
      let inner := rest.takeWhile (fun d => d ≠ op && d ≠ cl)
      match (rest.drop inner.length).head? with
      | some d =>
        if d = cl then
          match groupScan op cl fuel (rest.drop (inner.length + 1)) with
          | some n => some (1 + inner.length + 1 + n)
          | none => none
        else none
      | none => none
    else
      match groupScan op cl fuel rest with
      | some n => some (1 + n)
      | none => none

/-- `re.finditer` of the one-level brace/bracket pattern: leftmost,
non-overlapping matches. -/
def groupCandidates (op cl : Char) : Nat → List Char → List (List Char)
  | 0, _ => []
  | _ + 1, [] => []
  | fuel + 1, c :: rest =>
    if c = op then
      match groupScan op cl (rest.length + 1) rest with
      | some n => (c :: rest).take (1 + n) :: groupCandidates op cl fuel ((c :: rest).drop (1 + n))
      | none => groupCandidates op cl fuel rest
    else groupCandidates op cl fuel rest

/-- Stable insertion of a candidate into a length-descending list (equal
lengths keep earlier elements first), modelling Python's stable
`matches.sort(key=len, reverse=True)`. -/
def insertByLen (x : List Char) : List (List Char) → List (List Char)
  | [] => [x]
  | y :: ys => if x.length ≤ y.length then y :: insertByLen x ys else x :: y :: ys

/-- Stable sort by length, descending. -/
def sortByLenDesc (l : List (List Char)) : List (List Char) :=
  l.foldl (fun acc x => insertByLen x acc) []

/-- The candidate loop of `clean_llm_json` step 2 for one pattern: sort
the matches by length (descending, stable) and take the first whose
open/close counts agree. -/
def pickBalanced (op cl : Char) (cands : List (List Char)) : Option (List Char) :=
  (sortByLenDesc cands).find? (fun c => c.count op = c.count cl)

/-- Index of the first occurrence of `c` (Python `str.find`, as an
`Option`). -/
def firstIdx (l : List Char) (c : Char) : Option Nat :=
  l.findIdx? (· = c)

/-- Index of the last occurrence of `c` (Python `str.rfind`, as an
`Option`). -/
def lastIdx (l : List Char) (c : Char) : Option Nat :=
  match l.reverse.findIdx? (· = c) with
  | some j => some (l.length - 1 - j)
  | none => none

/-- The first-`op`/last-`cl` slice fallback (strategy 2 of
`clean_llm_json`): the slice `[first, last]` when both exist and
`first < last`. -/
def sliceFallback (op cl : Char) (l : List Char) : Option (List Char) :=
  match firstIdx l op, lastIdx l cl with
  | some f, some la => if f < la then some ((l.drop f).take (la + 1 - f)) else none
  | _, _ => none

/-- Steps 1 and 2 of `ParserService.clean_llm_json`: choose the working
text (the first fenced block containing `\x7b` or `[`, if any fenced block
exists), then locate the JSON candidate: longest balanced one-level brace
match, else longest balanced one-level bracket match, else the
first-brace/last-brace slice, else the first-bracket/last-bracket
slice. -/
def locate_json (s : String) : Option String :=
  let blocks := findCodeBlocks (s.data.length + 1) s.data
  let working :=
    match blocks.find? (fun b => b.contains '\x7b' || b.contains '[') with
    | some b => b
    | none => s.data
  let step2 : Option (List Char) :=
    match pickBalanced '\x7b' '\x7d' (groupCandidates '\x7b' '\x7d' (working.length + 1) working) with
    | some e => some e
    | none => pickBalanced '[' ']' (groupCandidates '[' ']' (working.length + 1) working)
  let extracted : Option (List Char) :=
    match step2 with
    | some e => some e
    | none =>
      match sliceFallback '\x7b' '\x7d' working with
      | some e => some e
      | none => sliceFallback '[' ']' working
  extracted.map (fun e => ⟨e⟩)

/-- Matcher for `,\s*\x7d` (resp. `,\s*]`). -/
def matchCommaClose (close : Char) (l : List Char) : Option Nat :=
  match l with
  | ',' :: rest =>
    let w := wsRun rest
    match (rest.drop w).head? with
    | some c => if c = close then some (1 + w + 1) else none
    | none => none
  | _ => none

/-- The control characters stripped by `_fix_common_json_issues`
(`[\x00-\x08\x0B-\x0C\x0E-\x1F\x7F]`). -/
def isStrippedCtrl (c : Char) : Bool :=
  c.val ≤ 8 || c.val = 0x0B || c.val = 0x0C ||
  (0x0E ≤ c.val && c.val ≤ 0x1F) || c.val = 0x7F

/-- The byte-order mark U+FEFF. -/
def bomChar : Char := Char.ofNat 0xFEFF

/-- `ParserService._fix_common_json_issues`: drop trailing commas before
closers, strip the control characters above, replace single quotes by
double quotes when the text has single but no double quotes, and drop a
byte-order mark. -/
def fix_common_json_issues (s : String) : String :=
  let l1 := reSub (fun _ => matchCommaClose '\x7d') ['\x7d'] s.data
  let l2 := reSub (fun _ => matchCommaClose ']') [']'] l1
  let l3 := l2.filter (fun c => !isStrippedCtrl c)
  let l4 :=
    if !(l3.contains '"') && l3.contains apos then
      l3.map (fun c => if c = apos then '"' else c)
    else l3
  ⟨l4.filter (fun c => c ≠ bomChar)⟩

/-- Steps 3 and 4 of `clean_llm_json`: strict parse of the located
candidate; on failure apply the textual repairs and retry the strict
parse once (the retry is skipped when the repairs changed nothing, in
which case it could only fail again). -/
def parse_with_repair (extracted : String) : Option Json :=
  match jsonLoads extracted with
  | some v => some v
  | none =>
    let fixed := fix_common_json_issues extracted
    if fixed ≠ extracted then jsonLoads fixed else none

/-- The pattern `"metadata"\s*:\s*(\x7b[^\x7d]+\x7d)` (resp. the
`"sections"` array pattern) tried at one position: the captured group. -/
def matchKeyGroupAt (keyPat : List Char) (op cl : Char) (l : List Char) :
    Option (List Char) :=
  if keyPat.isPrefixOf l then
    let l1 := l.drop keyPat.length
    match l1.drop (wsRun l1) with
    | ':' :: l2 =>
      match l2.drop (wsRun l2) with
      | c :: l3 =>
        if c = op then
          let body := l3.takeWhile (· ≠ cl)
          if body.isEmpty then none
          else
            match (l3.drop body.length).head? with
            | some _ => some (op :: (body ++ [cl]))
            | none => none
        else none
      | [] => none
    | _ => none
  else none

/-- `re.search` for the key pattern: first position where it matches. -/
def searchKeyGroup (keyPat : List Char) (op cl : Char) :
    Nat → List Char → Option (List Char)
  | 0, _ => none
  | _ + 1, [] => none
  | fuel + 1, l@(_ :: rest) =>
    match matchKeyGroupAt keyPat op cl l with
    | some g => some g
    | none => searchKeyGroup keyPat op cl fuel rest

/-- The literal `"metadata"` key pattern. -/
def mdKeyPat : List Char := '"' :: ("metadata".data ++ ['"'])

/-- The literal `"sections"` key pattern. -/
def secKeyPat : List Char := '"' :: ("sections".data ++ ['"'])

/-- The metadata probe of `_extract_partial_json`: the first regex match's
group, parsed as standalone JSON (a parse failure is caught and yields
nothing; later matches are not tried, as `re.search` returns only the
first). -/
def metadataRecover (s : String) : Option Json :=
  match searchKeyGroup mdKeyPat '\x7b' '\x7d' (s.data.length + 1) s.data with
  | some g => jsonLoads ⟨g⟩
  | none => none

/-- The sections probe of `_extract_partial_json`. -/
def sectionsRecover (s : String) : Option Json :=
  match searchKeyGroup secKeyPat '[' ']' (s.data.length + 1) s.data with
  | some g => jsonLoads ⟨g⟩
  | none => none

/-- `ParserService._extract_partial_json`: try the metadata probe, and
only if it recovers nothing the sections probe; `none` when neither
recovers. -/
def extract_partial_json (s : String) : Option (List (String × Json)) :=
  match metadataRecover s with
  | some v => some [("metadata", v)]
  | none =>
    match sectionsRecover s with
    | some v => some [("sections", v)]
    | none => none

/-- `ParserService.clean_llm_json`.  The argument is `Option String` so a
`None` input is representable; `Except.error` carries the `ValueError`
message. -/
def clean_llm_json (input : Option String) : Except String Json :=
  match input with
  | none => .error "LLM output is empty"
  | some s =>
    if s = "" || pyStrip s = "" then .error "LLM output is empty"
    else
      match locate_json s with
      | none => .error "No valid JSON object or array found in LLM output"
      | some extracted =>
        match parse_with_repair extracted with
        | some v => .ok v
        | none =>
          match extract_partial_json extracted with
          | some kvs => .ok (.obj kvs)
          | none => .error "Invalid JSON in LLM output"


/-! ## Helper lemmas -/

theorem dropWhile_eq_self_of_forall {p : Char → Bool} {l : List Char}
    (h : ∀ c ∈ l, p c = false) : l.dropWhile p = l := by
  cases l with
  | nil => rfl
  | cons a t => simp [List.dropWhile_cons, h a (by simp)]

theorem pyStripList_eq_self {l : List Char} (h : ∀ c ∈ l, pyIsSpace c = false) :
    pyStripList l = l := by
  unfold pyStripList
  rw [dropWhile_eq_self_of_forall h,
    dropWhile_eq_self_of_forall (fun c hc => h c (List.mem_reverse.mp hc)),
    List.reverse_reverse]

theorem pyStrip_eq_self {s : String} (h : ∀ c ∈ s.data, pyIsSpace c = false) :
    pyStrip s = s := by
  cases s with
  | mk data => show String.mk (pyStripList data) = String.mk data
               rw [pyStripList_eq_self h]

theorem sinhala_not_space {c : Char} (h : sinhalaChar c = true) :
    pyIsSpace c = false := by
  unfold sinhalaChar at h
  unfold pyIsSpace
  simp only [Bool.and_eq_true, decide_eq_true_eq] at h
  simp only [Bool.or_eq_false_iff, Bool.and_eq_false_iff, decide_eq_false_iff_not]
  omega

theorem letter_not_space {c : Char} (h : asciiLetter c = true) :
    pyIsSpace c = false := by
  unfold asciiLetter at h
  unfold pyIsSpace
  simp only [Bool.or_eq_true, Bool.and_eq_true, decide_eq_true_eq] at h
  simp only [Bool.or_eq_false_iff, Bool.and_eq_false_iff, decide_eq_false_iff_not]
  omega

theorem punct_not_space {c : Char} (h : c ∈ recognizedPunct) :
    pyIsSpace c = false := by
  fin_cases h <;> decide

theorem letter_in_class {c : Char} (h : asciiLetter c = true) :
    asciiClassChar c = true := by
  unfold asciiLetter at h
  unfold asciiClassChar
  simp only [Bool.or_eq_true, Bool.and_eq_true, decide_eq_true_eq] at h ⊢
  omega

theorem punct_in_class {c : Char} (h : c ∈ recognizedPunct) :
    asciiClassChar c = true := by
  fin_cases h <;> decide

theorem letter_not_sinhala {c : Char} (h : asciiLetter c = true) :
    sinhalaChar c = false := by
  unfold asciiLetter at h
  unfold sinhalaChar
  simp only [Bool.or_eq_true, Bool.and_eq_true, decide_eq_true_eq] at h
  simp only [Bool.and_eq_false_iff, decide_eq_false_iff_not]
  omega

theorem punct_not_sinhala {c : Char} (h : c ∈ recognizedPunct) :
    sinhalaChar c = false := by
  fin_cases h <;> decide

theorem letter_not_tamil {c : Char} (h : asciiLetter c = true) :
    tamilChar c = false := by
  unfold asciiLetter at h
  unfold tamilChar
  simp only [Bool.or_eq_true, Bool.and_eq_true, decide_eq_true_eq] at h
  simp only [Bool.and_eq_false_iff, decide_eq_false_iff_not]
  omega

theorem punct_not_tamil {c : Char} (h : c ∈ recognizedPunct) :
    tamilChar c = false := by
  fin_cases h <;> decide

theorem processPages_foldl (ps : List PageData) (c : PageCounts) :
    ps.foldl (fun a p => countsAdd a (pageStep p)) c =
      { successful := c.successful + ps.countP (fun p => isFastR (pageStep p)) +
          ps.countP (fun p => isOcrR (pageStep p))
        fastPath := c.fastPath + ps.countP (fun p => isFastR (pageStep p))
        ocrFallback := c.ocrFallback + ps.countP (fun p => isOcrR (pageStep p))
        failed := c.failed + ps.countP (fun p => isFailedR (pageStep p)) } := by
  induction ps generalizing c with
  | nil => simp [List.countP_nil]
  | cons p ps ih =>
    rw [List.foldl_cons, ih]
    rcases h : pageStep p with t | t | _ <;>
      simp [countsAdd, h, isFastR, isOcrR, isFailedR, List.countP_cons,
        PageCounts.mk.injEq] <;> omega

theorem processPages_eq (ps : List PageData) :
    processPages ps =
      { successful := ps.countP (fun p => isFastR (pageStep p)) +
          ps.countP (fun p => isOcrR (pageStep p))
        fastPath := ps.countP (fun p => isFastR (pageStep p))
        ocrFallback := ps.countP (fun p => isOcrR (pageStep p))
        failed := ps.countP (fun p => isFailedR (pageStep p)) } := by
  unfold processPages zeroCounts
  rw [processPages_foldl]
  simp

theorem isFastR_fast (t : String) : isFastR (.fast t) = true := rfl

theorem isFastR_ocr (t : String) : isFastR (.ocr t) = false := rfl

theorem isFastR_failed : isFastR .failed = false := rfl

theorem isOcrR_fast (t : String) : isOcrR (.fast t) = false := rfl

theorem isOcrR_ocr (t : String) : isOcrR (.ocr t) = true := rfl

theorem isOcrR_failed : isOcrR .failed = false := rfl

theorem isFailedR_fast (t : String) : isFailedR (.fast t) = false := rfl

theorem isFailedR_ocr (t : String) : isFailedR (.ocr t) = false := rfl

theorem isFailedR_failed : isFailedR .failed = true := rfl

theorem countP_results_sum (ps : List PageData) :
    ps.countP (fun p => isFastR (pageStep p)) +
    ps.countP (fun p => isOcrR (pageStep p)) +
    ps.countP (fun p => isFailedR (pageStep p)) = ps.length := by
  induction ps with
  | nil => rfl
  | cons p ps ih =>
    simp only [List.countP_cons, List.length_cons]
    rcases h : pageStep p with t | t | _ <;>
      simp only [h, isFastR_fast, isFastR_ocr, isFastR_failed, isOcrR_fast,
        isOcrR_ocr, isOcrR_failed, isFailedR_fast, isFailedR_ocr,
        isFailedR_failed, if_true, if_false] <;>
      simp <;> omega

theorem needs_ocr_some (s : String) :
    needs_ocr (some s) =
      (if s = "" || (pyStrip s).data.length < 10 then true
       else if 100 * s.data.countP sinhalaChar > s.data.length ||
           0 < s.data.countP tamilChar then true
       else if 5 * (s.data.length - s.data.countP asciiClassChar -
           s.data.countP sinhalaChar - s.data.countP tamilChar) >
           s.data.length then true
       else if 5 * s.data.countP asciiClassChar > 4 * s.data.length then false
       else true) := rfl

/-! ## Claim theorems -/

/-- C1 (counterexample): on a two-page document processed with
`max_pages = 1`, the per-page counters sum to 1 (only the first page is
iterated) while `total_pages` is 2, so the invariant
`fast_path_pages + ocr_fallback_pages + failed_pages == total_pages` fails
when the `max_pages` limit truncates the document. -/
theorem C1_counterexample :
    (process_pdf [⟨.ok (some "Hello there, counsel."), ""⟩,
      ⟨.ok (some "Hello there, counsel."), ""⟩] (some 1)).2.fast_path_pages +
    (process_pdf [⟨.ok (some "Hello there, counsel."), ""⟩,
      ⟨.ok (some "Hello there, counsel."), ""⟩] (some 1)).2.ocr_fallback_pages +
    (process_pdf [⟨.ok (some "Hello there, counsel."), ""⟩,
      ⟨.ok (some "Hello there, counsel."), ""⟩] (some 1)).2.failed_pages ≠
    (process_pdf [⟨.ok (some "Hello there, counsel."), ""⟩,
      ⟨.ok (some "Hello there, counsel."), ""⟩] (some 1)).2.total_pages := by
  decide

/-- C1 (amended): `fast_path_pages + ocr_fallback_pages + failed_pages`
equals the number of pages actually iterated (all pages when `max_pages`
is absent or zero, the first `max_pages` pages otherwise), and
`total_pages` always equals the page count of the document; the claimed
equality with `total_pages` therefore holds exactly when no truncating
limit applies. -/
theorem C1_amended_thm (pages : List PageData) (maxPages : Option Nat) :
    (process_pdf pages maxPages).2.fast_path_pages +
      (process_pdf pages maxPages).2.ocr_fallback_pages +
      (process_pdf pages maxPages).2.failed_pages =
      (pagesToProcess pages maxPages).length ∧
    (process_pdf pages maxPages).2.total_pages = pages.length := by
  constructor
  · show (processPages (pagesToProcess pages maxPages)).fastPath +
        (processPages (pagesToProcess pages maxPages)).ocrFallback +
        (processPages (pagesToProcess pages maxPages)).failed =
        (pagesToProcess pages maxPages).length
    rw [processPages_eq]
    exact countP_results_sum _
  · rfl

/-- C2 (counterexample): `clean_text` is not idempotent.  For
"page 1\nx\nof 2" the first pass removes the short line "x", which glues
"page 1" and "of 2" into a cross-line `page N of M` pattern that only the
second pass erases. -/
theorem C2_counterexample :
    clean_text (clean_text "page 1\nx\nof 2") ≠
      clean_text "page 1\nx\nof 2" := by
  decide

/-- C2 (amended): `clean_text` is pure — a deterministic function of its
argument — but it is not idempotent: some input is not a fixed point after
one pass. -/
theorem C2_amended_thm :
    (∀ x y : String, x = y → clean_text x = clean_text y) ∧
    ∃ x : String, clean_text (clean_text x) ≠ clean_text x :=
  ⟨fun _ _ h => by rw [h], ⟨"page 1\nx\nof 2", by decide⟩⟩

/-- Witness for C2 (amended) at a concrete input. -/
theorem C2_amended_witness :
    clean_text "sample" = clean_text "sample" :=
  C2_amended_thm.1 "sample" "sample" rfl

/-- C3 (counterexample): ten backslashes form a string of printable ASCII
punctuation of length 10, yet `needs_ocr` returns true (backslash is not
in the recognised ASCII class, so every character counts as "other"). -/
theorem C3_counterexample :
    needs_ocr (some ⟨List.replicate 10 '\\'⟩) = true := by
  decide

/-- C3 (amended): `needs_ocr` returns false on every string of length at
least 10 whose characters are ASCII letters or punctuation drawn from the
class the heuristic recognises (all printable ASCII punctuation except
backslash and underscore). -/
theorem C3_amended_thm (s : String) (hlen : 10 ≤ s.data.length)
    (hall : ∀ c ∈ s.data, asciiLetter c = true ∨ c ∈ recognizedPunct) :
    needs_ocr (some s) = false := by
  have hns : ∀ c ∈ s.data, pyIsSpace c = false := fun c hc =>
    (hall c hc).elim letter_not_space punct_not_space
  have hstrip : pyStrip s = s := pyStrip_eq_self hns
  have hA : s.data.countP asciiClassChar = s.data.length :=
    List.countP_eq_length.mpr
      (fun c hc => (hall c hc).elim letter_in_class punct_in_class)
  have hS : s.data.countP sinhalaChar = 0 :=
    List.countP_eq_zero.mpr (fun c hc => by
      simp [(hall c hc).elim letter_not_sinhala punct_not_sinhala])
  have hT : s.data.countP tamilChar = 0 :=
    List.countP_eq_zero.mpr (fun c hc => by
      simp [(hall c hc).elim letter_not_tamil punct_not_tamil])
  have hne : s ≠ "" := by
    intro h
    rw [h] at hlen
    simp at hlen
  have h45 : 4 * s.data.length < 5 * s.data.length := by omega
  have hnl : ¬ (s.data.length < 10) := by omega
  rw [needs_ocr_some, hstrip, hA, hS, hT]
  simp [hne, hnl, h45]
  exact ⟨hlen, h45⟩

/-- Witness for C3 (amended) at a concrete input. -/
theorem C3_amended_witness :
    10 ≤ ("Hello,World!" : String).data.length ∧
    needs_ocr (some "Hello,World!") = false :=
  ⟨by decide, C3_amended_thm "Hello,World!" (by decide) (by decide)⟩

/-- C7: an exception in a page's fast extraction is caught inside the
per-page loop: relative to the same document without the raising page,
`failed_pages` grows by exactly one, the other counters are unchanged
(the remaining pages are still processed), and `process_pdf` — a total
function here — returns normally instead of propagating. -/
theorem C7_page_error_caught (u v : List PageData) (p : PageData)
    (h : pageTry p = .error ()) :
    (process_pdf (u ++ p :: v) none).2.failed_pages =
      (process_pdf (u ++ v) none).2.failed_pages + 1 ∧
    (process_pdf (u ++ p :: v) none).2.fast_path_pages =
      (process_pdf (u ++ v) none).2.fast_path_pages ∧
    (process_pdf (u ++ p :: v) none).2.ocr_fallback_pages =
      (process_pdf (u ++ v) none).2.ocr_fallback_pages ∧
    (process_pdf (u ++ p :: v) none).2.successful_pages =
      (process_pdf (u ++ v) none).2.successful_pages := by
  have hp : pageStep p = .failed := by unfold pageStep; rw [h]
  refine ⟨?_, ?_, ?_, ?_⟩
  · show (processPages (u ++ p :: v)).failed =
        (processPages (u ++ v)).failed + 1
    rw [processPages_eq, processPages_eq]
    simp [List.countP_append, List.countP_cons, hp, isFailedR_failed]
    omega
  · show (processPages (u ++ p :: v)).fastPath =
        (processPages (u ++ v)).fastPath
    rw [processPages_eq, processPages_eq]
    simp [List.countP_append, List.countP_cons, hp, isFastR_failed]
  · show (processPages (u ++ p :: v)).ocrFallback =
        (processPages (u ++ v)).ocrFallback
    rw [processPages_eq, processPages_eq]
    simp [List.countP_append, List.countP_cons, hp, isOcrR_failed]
  · show (processPages (u ++ p :: v)).successful =
        (processPages (u ++ v)).successful
    rw [processPages_eq, processPages_eq]
    simp [List.countP_append, List.countP_cons, hp, isFastR_failed,
      isOcrR_failed]

/-- Witness for C7 at a concrete raising page. -/
theorem C7_page_error_caught_witness :
    (process_pdf [(⟨.raised, ""⟩ : PageData)] none).2.failed_pages =
      (process_pdf ([] : List PageData) none).2.failed_pages + 1 ∧
    (process_pdf [(⟨.raised, ""⟩ : PageData)] none).2.fast_path_pages =
      (process_pdf ([] : List PageData) none).2.fast_path_pages ∧
    (process_pdf [(⟨.raised, ""⟩ : PageData)] none).2.ocr_fallback_pages =
      (process_pdf ([] : List PageData) none).2.ocr_fallback_pages ∧
    (process_pdf [(⟨.raised, ""⟩ : PageData)] none).2.successful_pages =
      (process_pdf ([] : List PageData) none).2.successful_pages :=
  C7_page_error_caught [] [] ⟨.raised, ""⟩ rfl

/-- C8: `needs_ocr` returns true on every non-empty string drawn entirely
from the Sinhala block, and on the empty string and on `None`. -/
theorem C8_target_script :
    (∀ s : String, s ≠ "" → (∀ c ∈ s.data, sinhalaChar c = true) →
      needs_ocr (some s) = true) ∧
    needs_ocr (some "") = true ∧ needs_ocr none = true := by
  refine ⟨fun s hne hall => ?_, rfl, rfl⟩
  rw [needs_ocr_some]
  by_cases hlen : (pyStrip s).data.length < 10
  · simp
    exact Or.inl (Or.inr hlen)
  · have hpos : 0 < s.data.length := by
      cases hd : s.data with
      | nil =>
        exfalso
        apply hne
        cases s with
        | mk data => simpa [String.ext_iff] using hd
      | cons a t => simp [hd]
    have hsin : s.data.countP sinhalaChar = s.data.length :=
      List.countP_eq_length.mpr hall
    have h100 : s.data.length < 100 * s.data.countP sinhalaChar := by
      rw [hsin]; omega
    simp
    exact Or.inr (Or.inl (Or.inl h100))

/-- Witness for C8 at a concrete all-Sinhala string. -/
theorem C8_target_script_witness :
    ("අආඉ" : String) ≠ "" ∧ needs_ocr (some "අආඉ") = true :=
  ⟨by decide, C8_target_script.1 "අආඉ" (by decide) (by decide)⟩

/-- C9: `successful_pages` always equals
`fast_path_pages + ocr_fallback_pages`: each successful page was counted
by exactly one of the two strategies, and failed pages are never counted
as successful. -/
theorem C9_successful_split (pages : List PageData) (maxPages : Option Nat) :
    (process_pdf pages maxPages).2.successful_pages =
      (process_pdf pages maxPages).2.fast_path_pages +
      (process_pdf pages maxPages).2.ocr_fallback_pages := by
  show (processPages (pagesToProcess pages maxPages)).successful =
      (processPages (pagesToProcess pages maxPages)).fastPath +
      (processPages (pagesToProcess pages maxPages)).ocrFallback
  rw [processPages_eq]

/-- C4 (counterexample): in this candidate both a metadata object and a
sections array are recoverable — each probe alone succeeds — yet the
result carries only the "metadata" key, so the probes are not independent
and the result does not contain every recoverable key. -/
theorem C4_counterexample :
    metadataRecover "\"metadata\": \x7b\"x\": 1\x7d \"sections\": [2]" =
      some (Json.obj [("x", Json.num "1")]) ∧
    sectionsRecover "\"metadata\": \x7b\"x\": 1\x7d \"sections\": [2]" =
      some (Json.arr [Json.num "2"]) ∧
    extract_partial_json "\"metadata\": \x7b\"x\": 1\x7d \"sections\": [2]" =
      some [("metadata", Json.obj [("x", Json.num "1")])] :=
  ⟨rfl, rfl, rfl⟩

/-- C4 (amended): the probes run sequentially — metadata first, sections
only when the metadata probe recovers nothing — the result holds exactly
the first recovered key, the function never raises (it is total), and it
returns `none` exactly when no probe recovers. -/
theorem C4_amended_thm :
    (∀ s, extract_partial_json s = none ↔
      metadataRecover s = none ∧ sectionsRecover s = none) ∧
    (∀ s v, metadataRecover s = some v →
      extract_partial_json s = some [("metadata", v)]) ∧
    (∀ s v, metadataRecover s = none → sectionsRecover s = some v →
      extract_partial_json s = some [("sections", v)]) := by
  refine ⟨fun s => ?_, fun s v h => ?_, fun s v h1 h2 => ?_⟩
  · cases hm : metadataRecover s <;> cases hs : sectionsRecover s <;>
      simp [extract_partial_json, hm, hs]
  · unfold extract_partial_json
    rw [h]
  · unfold extract_partial_json
    rw [h1, h2]

/-- Witness for C4 (amended) at a concrete input. -/
theorem C4_amended_witness :
    extract_partial_json "\"sections\": [3]" =
      some [("sections", Json.arr [Json.num "3"])] :=
  C4_amended_thm.2.2 "\"sections\": [3]" (Json.arr [Json.num "3"]) rfl rfl

/-- C5: on the fenced input the working text is the first fence's
contents, on the prose input the balanced-brace scan applies, and in both
cases the located candidate is exactly the object text, which parses to
the mapping sending "a" to 1. -/
theorem C5_locate_json :
    locate_json "```json\n\x7b\"a\": 1\x7d\n```" = some "\x7b\"a\": 1\x7d" ∧
    locate_json "Here is the result: \x7b\"a\": 1\x7d Thanks!" =
      some "\x7b\"a\": 1\x7d" ∧
    jsonLoads "\x7b\"a\": 1\x7d" = some (Json.obj [("a", Json.num "1")]) :=
  ⟨rfl, rfl, rfl⟩

/-- C6: the strict parse of the trailing-comma candidate fails, the
textual repairs remove the trailing comma, and the single retry then
succeeds with the mapping sending "a" to 1. -/
theorem C6_repair :
    jsonLoads "\x7b\"a\": 1,\x7d" = none ∧
    fix_common_json_issues "\x7b\"a\": 1,\x7d" = "\x7b\"a\": 1\x7d" ∧
    parse_with_repair "\x7b\"a\": 1,\x7d" =
      some (Json.obj [("a", Json.num "1")]) :=
  ⟨rfl, rfl, rfl⟩

/-- C10: `clean_llm_json` rejects `None`, the empty string and
whitespace-only strings with the "empty" ValueError, before any
extraction strategy runs. -/
theorem C10_empty_rejected :
    clean_llm_json none = .error "LLM output is empty" ∧
    (∀ s : String, pyStrip s = "" →
      clean_llm_json (some s) = .error "LLM output is empty") := by
  refine ⟨rfl, fun s h => ?_⟩
  unfold clean_llm_json
  simp [h]

/-- Witness for C10 at a concrete whitespace-only input. -/
theorem C10_empty_rejected_witness :
    clean_llm_json (some "  \n ") = .error "LLM output is empty" :=
  C10_empty_rejected.2 "  \n " (by decide)
